import Mathlib

/-!
Verification of the SolSentry multi-source risk aggregation engine.

This file shallowly embeds the security-check engine of
`src/unnamed/part_000` (function `performSecurityChecks` and its provider
adapters) in Lean.  Network calls are replaced by explicit provider
responses: every `async` provider call becomes a parameter holding either
the delivered payload (`some`) or the fact that the underlying HTTP call
threw (`none`).  JavaScript exceptions that escape `performSecurityChecks`
(the `TypeError` at the `report.authorities.mintAuthority.includes` call
and the `RangeError` raised by BigInt division by zero) are modelled by
the `Except String` result of the run.  Raw token amounts, which the
source manipulates as `BigInt`, are modelled as `Nat`; USD liquidity
figures, which the source manipulates as JS numbers, are modelled as `ℚ`.
-/

deriving instance DecidableEq for Except

namespace SolSentry

/-- Result of `getMint`: the on-chain mint account, as used by the source
(only the two authority fields are read by `performSecurityChecks`).
`mintAuthority`/`freezeAuthority` are `some pubkey` when the authority is
set and `none` when renounced (`null` in the source). -/
structure MintInfo where
  mintAuthority : Option String
  freezeAuthority : Option String
  deriving DecidableEq, Repr

/-- Creator record inside the Solscan token metadata
(`tokenMeta.creator`), with its address and percentage share. -/
structure Creator where
  address : String
  share : ℚ
  deriving DecidableEq, Repr

/-- Solscan token metadata as read by the source: `creator`, raw `supply`,
`decimals` and `holder` count are each optional fields of the payload. -/
structure TokenMeta where
  creator : Option Creator
  supply : Option ℕ
  decimals : Option ℕ
  holder : Option ℕ
  deriving DecidableEq, Repr

/-- One DEXScreener pair as read by the source: `dexId`, `pairAddress`,
`liquidity?.usd` and `volume?.h24` (the latter two may be absent). -/
structure Pair where
  dexId : String
  pairAddress : String
  liquidityUsd : Option ℚ
  volume24h : Option ℚ
  deriving DecidableEq, Repr

/-- One holder entry of the Solscan holder list; only `amount` (the raw
balance, a `BigInt` in the source) is read by the security checks. -/
structure Holder where
  amount : ℕ
  deriving DecidableEq, Repr

/-- One recent transaction; the source reads `type` and `amount`. -/
structure Tx where
  type : String
  amount : ℕ
  deriving DecidableEq, Repr

/-- The outcome of the five provider calls issued by one run of
`performSecurityChecks`.  `none` means the underlying call threw (network
error, malformed identifier for `getMint`, ...); `some` carries the
delivered payload. -/
structure ProviderResponses where
  mintResult : Option MintInfo
  metaResult : Option TokenMeta
  dexResult : Option (List Pair)
  holdersResult : Option (List Holder)
  txResult : Option (List Tx)
  deriving DecidableEq, Repr

/-- Adapter `getTokenMeta`: returns `response.data.data || null`, and
`null` when the call throws — the caller sees an `Option TokenMeta`. -/
def getTokenMeta (r : Option TokenMeta) : Option TokenMeta := r

/-- Adapter `getTopHolders`: returns `response.data.data || []`, and `[]`
when the call throws. -/
def getTopHolders (r : Option (List Holder)) : List Holder := r.getD []

/-- Adapter `getDexPairs`: returns `response.data.pairs || []`, and `[]`
when the call throws — a failed call is indistinguishable from a token
with no pairs. -/
def getDexPairs (r : Option (List Pair)) : List Pair := r.getD []

/-- Adapter `getRecentTransactions`: returns `response.data.data || []`,
and `[]` when the call throws. -/
def getRecentTransactions (r : Option (List Tx)) : List Tx := r.getD []

/-- The `authorities` section of the report (success case). -/
structure Authorities where
  mintAuthority : String
  freezeAuthority : String
  deriving DecidableEq, Repr

/-- The `adminKeys` section of the report (success case). -/
structure AdminKeys where
  creator : String
  note : String
  deriving DecidableEq, Repr

/-- The `lpHealth` section of the report (success case). -/
structure LpHealth where
  dex : String
  liquidityUSD : ℚ
  volume24h : ℚ
  pairAddress : String
  note : String
  deriving DecidableEq, Repr

/-- The `tokenDistribution` section of the report (success case).
`holderCount` is `tokenMeta?.holder || 'Unknown'`: `none` stands for the
string `Unknown` (produced both when the count is absent and when it is
the falsy value `0`). -/
structure TokenDistribution where
  top10HoldersPercent : ℕ
  holderCount : Option ℕ
  deriving DecidableEq, Repr

/-- The `transactionPatterns` section of the report (success case). -/
structure TransactionPatterns where
  recentTxCount : ℕ
  potentialDumps : ℕ
  note : String
  deriving DecidableEq, Repr

/-- The report assembled by `performSecurityChecks`.  Each section is
either populated (`.ok`) or carries the error marker string the source
stores in `section.error`. -/
structure Report where
  authorities : Except String Authorities
  adminKeys : Except String AdminKeys
  lpHealth : Except String LpHealth
  tokenDistribution : Except String TokenDistribution
  transactionPatterns : Except String TransactionPatterns
  riskScore : ℕ
  flags : List String
  deriving DecidableEq, Repr

/-- JavaScript `a.includes(b)` on strings: substring containment. -/
def includesStr (s sub : String) : Bool := decide (sub.toList <:+: s.toList)

/-- JavaScript `curr.liquidity?.usd > prev.liquidity?.usd`: numeric
comparison, false whenever either side is `undefined`. -/
def liqGt (curr prev : Pair) : Bool :=
  match curr.liquidityUsd, prev.liquidityUsd with
  | some c, some p => decide (p < c)
  | _, _ => false

/-- Step 1 of `performSecurityChecks`: the `try` block around `getMint`.
Returns the `authorities` section together with the flags pushed and the
risk-score contribution of this step. -/
def checkAuthorities (mintResult : Option MintInfo) :
    Except String Authorities × List String × ℕ :=
  match mintResult with
  | none => (.error "Failed to fetch on-chain mint info", [], 0)
  | some mintInfo =>
    (.ok { mintAuthority :=
             if mintInfo.mintAuthority.isSome then "Active (Risk: Can mint more tokens)"
             else "Renounced (Safe)"
         , freezeAuthority :=
             if mintInfo.freezeAuthority.isSome then "Active (Risk: Can freeze tokens)"
             else "Renounced (Safe)" },
     (if mintInfo.mintAuthority.isSome then ["Mint authority active"] else []) ++
       (if mintInfo.freezeAuthority.isSome then ["Freeze authority active"] else []),
     (if mintInfo.mintAuthority.isSome then 30 else 0) +
       (if mintInfo.freezeAuthority.isSome then 20 else 0))

/-- Step 2 of `performSecurityChecks`: admin/owner keys from the Solscan
metadata, with the creator-share heuristic. -/
def checkAdminKeys (tokenMeta : Option TokenMeta) :
    Except String AdminKeys × List String × ℕ :=
  match tokenMeta with
  | none => (.error "Failed to fetch token meta", [], 0)
  | some meta =>
    (.ok { creator :=
             match meta.creator with
             | some c => c.address ++ " (" ++ toString c.share ++ "% share)"
             | none => "Unknown"
         , note := "Check if creator wallet has multisig or renounced control (manual review recommended)" },
     (if (match meta.creator with | some c => decide (c.share > 10) | none => false)
        then ["Creator holds >10% share"] else []),
     (if (match meta.creator with | some c => decide (c.share > 10) | none => false)
        then 15 else 0))

/-- Step 3 of `performSecurityChecks`: LP health from the DEX pairs.  The
outer `Except` is the JavaScript exception channel: when the authorities
section failed, `report.authorities.mintAuthority` is `undefined` and the
`.includes` call throws a `TypeError`, aborting the whole run. -/
def checkLpHealth (authorities : Except String Authorities) (pairs : List Pair) :
    Except String (Except String LpHealth × List String × ℕ) :=
  match pairs with
  | [] => .ok (.error "No DEX pairs found", ["No liquidity pools detected"], 30)
  | first :: rest =>
    let mainPair := (first :: rest).foldl (fun prev curr => if liqGt curr prev then curr else prev) first
    let lpHealth : LpHealth :=
      { dex := mainPair.dexId
      , liquidityUSD := mainPair.liquidityUsd.getD 0
      , volume24h := mainPair.volume24h.getD 0
      , pairAddress := mainPair.pairAddress
      , note := "LP lock status: Use manual check on Solscan for LP mint supply/burns (advanced: integrate SolSniffer API)" }
    match authorities with
    | .error _ => .error "TypeError: Cannot read properties of undefined (reading includes)"
    | .ok auth =>
      .ok (.ok lpHealth,
           (if lpHealth.liquidityUSD < 20000 then ["Tiny LP (<$20k)"] else []) ++
             (if includesStr auth.mintAuthority "Active" then ["Potential LP risk due to active mint"] else []),
           (if lpHealth.liquidityUSD < 20000 then 25 else 0) +
             (if includesStr auth.mintAuthority "Active" then 10 else 0))

/-- `Number((balance * 100n) / totalSupply)`: one holder's contribution to
the top-10 percentage, a truncating BigInt division. -/
def holderContribution (totalSupply : ℕ) (hd : Holder) : ℕ :=
  hd.amount * 100 / totalSupply

/-- The `top10Percent` accumulator of step 4: the sum of the truncated
per-holder percentage contributions. -/
def top10PercentOf (totalSupply : ℕ) (holders : List Holder) : ℕ :=
  (holders.map (holderContribution totalSupply)).sum

/-- Step 4 of `performSecurityChecks`: holder-concentration analysis.
`BigInt(tokenMeta?.supply || 0)` substitutes `0` for a missing supply;
with a non-empty holder list the BigInt division `balance * 100n /
totalSupply` then throws a `RangeError` (outer `Except`). -/
def checkDistribution (tokenMeta : Option TokenMeta) (topHolders : List Holder) :
    Except String (Except String TokenDistribution × List String × ℕ) :=
  match topHolders with
  | [] => .ok (.error "Failed to fetch holders", [], 0)
  | _ :: _ =>
    let totalSupply := (tokenMeta.bind TokenMeta.supply).getD 0
    if totalSupply = 0 then .error "RangeError: Division by zero"
    else
      let top10Percent := top10PercentOf totalSupply topHolders
      let dist : TokenDistribution :=
        { top10HoldersPercent := top10Percent
        , holderCount :=
            match tokenMeta.bind TokenMeta.holder with
            | some n => if n = 0 then none else some n
            | none => none }
      if top10Percent > 50 then
        .ok (.ok dist, ["High concentration (>50% in top 10)"], 25)
      else if top10Percent > 20 then
        .ok (.ok dist, ["Moderate concentration (>20% in top 10)"], 10)
      else
        .ok (.ok dist, [], 0)

/-- Step 5 of `performSecurityChecks`: basic transaction-pattern analysis.
The fold mirrors the source `forEach` computing `sellCount` (first
component, unused by any flag) and `largeDumps` (second component). -/
def checkTxPatterns (recentTx : List Tx) :
    Except String TransactionPatterns × List String × ℕ :=
  match recentTx with
  | [] => (.error "Failed to fetch transactions", [], 0)
  | _ :: _ =>
    let counts := recentTx.foldl
      (fun (acc : ℕ × ℕ) tx =>
        if tx.type = "transfer" ∧ tx.amount > 1000000 then
          (acc.1 + 1, if tx.amount > 10000000 then acc.2 + 1 else acc.2)
        else acc)
      (0, 0)
    (.ok { recentTxCount := recentTx.length
         , potentialDumps := counts.2
         , note := "Advanced: Analyze for bot patterns or unnatural spikes (integrate Birdeye API for volume trends)" },
     (if counts.2 > 2 then ["Recent large dumps detected"] else []),
     (if counts.2 > 2 then 20 else 0))

/-- The main engine, `performSecurityChecks` of `src/unnamed/part_000`,
as a function of the five provider outcomes.  Sections run in source
order; flags accumulate in push order; the final score is capped by
`Math.min(report.riskScore, 100)`.  A `.error` result is an uncaught
JavaScript exception aborting the run. -/
def performSecurityChecks (inp : ProviderResponses) : Except String Report :=
  let a := checkAuthorities inp.mintResult
  let tokenMeta := getTokenMeta inp.metaResult
  let k := checkAdminKeys tokenMeta
  match checkLpHealth a.1 (getDexPairs inp.dexResult) with
  | .error e => .error e
  | .ok l =>
    match checkDistribution tokenMeta (getTopHolders inp.holdersResult) with
    | .error e => .error e
    | .ok d =>
      let t := checkTxPatterns (getRecentTransactions inp.txResult)
      .ok { authorities := a.1
          , adminKeys := k.1
          , lpHealth := l.1
          , tokenDistribution := d.1
          , transactionPatterns := t.1
          , riskScore := min (a.2.2 + k.2.2 + l.2.2 + d.2.2 + t.2.2) 100
          , flags := a.2.1 ++ k.2.1 ++ l.2.1 ++ d.2.1 ++ t.2.1 }

/-- The score delta each rule adds when its flag is pushed (rule table of
the source: every `flags.push` is paired with one `riskScore +=`). -/
def flagDelta (f : String) : ℕ :=
  if f = "Mint authority active" then 30
  else if f = "Freeze authority active" then 20
  else if f = "Creator holds >10% share" then 15
  else if f = "Tiny LP (<$20k)" then 25
  else if f = "Potential LP risk due to active mint" then 10
  else if f = "No liquidity pools detected" then 30
  else if f = "High concentration (>50% in top 10)" then 25
  else if f = "Moderate concentration (>20% in top 10)" then 10
  else if f = "Recent large dumps detected" then 20
  else 0

/-- A DEX pair with healthy liquidity (above both heuristic thresholds). -/
def healthyPair : Pair :=
  { dexId := "raydium", pairAddress := "PAIRADDR", liquidityUsd := some 30000, volume24h := some 1000 }

/-- The `lpHealth` section derived from `healthyPair`. -/
def healthyLpHealth : LpHealth :=
  { dex := "raydium"
  , liquidityUSD := 30000
  , volume24h := 1000
  , pairAddress := "PAIRADDR"
  , note := "LP lock status: Use manual check on Solscan for LP mint supply/burns (advanced: integrate SolSniffer API)" }

/-- Provider pattern for C1: the chain reader fails, the DEX reader
succeeds with one pair, the remaining providers deliver empty data. -/
def c1Input : ProviderResponses :=
  { mintResult := none, metaResult := none, dexResult := some [healthyPair],
    holdersResult := some [], txResult := some [] }

/-- Provider pattern for C3: the chain reader fails while every other
provider succeeds with non-empty data. -/
def c3Input : ProviderResponses :=
  { mintResult := none
  , metaResult := some { creator := some ⟨"CREATOR", 5⟩, supply := some 1000, decimals := some 0, holder := some 42 }
  , dexResult := some [healthyPair]
  , holdersResult := some [⟨100⟩]
  , txResult := some [⟨"transfer", 5⟩] }

/-- Provider pattern for C4: the DEX-pair provider call fails (its data
is absent); all other sources are either failed or empty. -/
def c4Input : ProviderResponses :=
  { mintResult := some ⟨none, none⟩, metaResult := none, dexResult := none,
    holdersResult := some [], txResult := some [] }

/-- The report the engine produces on `c4Input`. -/
def c4Report : Report :=
  { authorities := .ok ⟨"Renounced (Safe)", "Renounced (Safe)"⟩
  , adminKeys := .error "Failed to fetch token meta"
  , lpHealth := .error "No DEX pairs found"
  , tokenDistribution := .error "Failed to fetch holders"
  , transactionPatterns := .error "Failed to fetch transactions"
  , riskScore := 30
  , flags := ["No liquidity pools detected"] }

/-- Provider pattern for C5: mint and freeze authorities both active, all
other providers failed or empty, so no other rule condition holds on any
signal derived from a successful provider response. -/
def c5Input : ProviderResponses :=
  { mintResult := some ⟨some "MINTAUTH", some "FREEZEAUTH"⟩, metaResult := none,
    dexResult := none, holdersResult := some [], txResult := some [] }

/-- The report the engine produces on `c5Input`. -/
def c5Report : Report :=
  { authorities := .ok ⟨"Active (Risk: Can mint more tokens)", "Active (Risk: Can freeze tokens)"⟩
  , adminKeys := .error "Failed to fetch token meta"
  , lpHealth := .error "No DEX pairs found"
  , tokenDistribution := .error "Failed to fetch holders"
  , transactionPatterns := .error "Failed to fetch transactions"
  , riskScore := 80
  , flags := ["Mint authority active", "Freeze authority active", "No liquidity pools detected"] }

/-- Provider pattern for C6: holder list `[{amount: 600},{amount: 400}]`
and metadata supply `1000` with decimals `0`; authorities renounced and a
healthy DEX pair so no other rule interferes. -/
def c6Input : ProviderResponses :=
  { mintResult := some ⟨none, none⟩
  , metaResult := some { creator := none, supply := some 1000, decimals := some 0, holder := some 2 }
  , dexResult := some [healthyPair]
  , holdersResult := some [⟨600⟩, ⟨400⟩]
  , txResult := some [] }

/-- The report the engine produces on `c6Input`. -/
def c6Report : Report :=
  { authorities := .ok ⟨"Renounced (Safe)", "Renounced (Safe)"⟩
  , adminKeys := .ok ⟨"Unknown", "Check if creator wallet has multisig or renounced control (manual review recommended)"⟩
  , lpHealth := .ok healthyLpHealth
  , tokenDistribution := .ok { top10HoldersPercent := 100, holderCount := some 2 }
  , transactionPatterns := .error "Failed to fetch transactions"
  , riskScore := 25
  , flags := ["High concentration (>50% in top 10)"] }

/-- Provider pattern for C8: the metadata payload is delivered but its
`supply` field is missing, and the holder list is non-empty. -/
def c8Input : ProviderResponses :=
  { mintResult := some ⟨none, none⟩
  , metaResult := some { creator := none, supply := none, decimals := some 6, holder := some 3 }
  , dexResult := some [healthyPair]
  , holdersResult := some [⟨600⟩]
  , txResult := some [] }

/-- Provider pattern for the C2 witness: five rules fire for a raw delta
sum of 120, which must clamp to 100. -/
def c2Input : ProviderResponses :=
  { mintResult := some ⟨some "MINTAUTH", some "FREEZEAUTH"⟩
  , metaResult := some { creator := some ⟨"CREATOR", 50⟩, supply := some 1000, decimals := some 0, holder := some 2 }
  , dexResult := some []
  , holdersResult := some [⟨600⟩, ⟨400⟩]
  , txResult := some [] }

/-- The report the engine produces on `c2Input`. -/
def c2Report : Report :=
  { authorities := .ok ⟨"Active (Risk: Can mint more tokens)", "Active (Risk: Can freeze tokens)"⟩
  , adminKeys := .ok ⟨"CREATOR (50% share)", "Check if creator wallet has multisig or renounced control (manual review recommended)"⟩
  , lpHealth := .error "No DEX pairs found"
  , tokenDistribution := .ok { top10HoldersPercent := 100, holderCount := some 2 }
  , transactionPatterns := .error "Failed to fetch transactions"
  , riskScore := 100
  , flags := ["Mint authority active", "Freeze authority active", "Creator holds >10% share",
              "No liquidity pools detected", "High concentration (>50% in top 10)"] }

/-- Provider pattern for the C7 witness: moderate concentration fires. -/
def c7Input : ProviderResponses :=
  { mintResult := some ⟨none, none⟩
  , metaResult := some { creator := none, supply := some 1000, decimals := some 0, holder := some 2 }
  , dexResult := some [healthyPair]
  , holdersResult := some [⟨300⟩, ⟨100⟩]
  , txResult := some [] }

/-- The report the engine produces on `c7Input`. -/
def c7Report : Report :=
  { authorities := .ok ⟨"Renounced (Safe)", "Renounced (Safe)"⟩
  , adminKeys := .ok ⟨"Unknown", "Check if creator wallet has multisig or renounced control (manual review recommended)"⟩
  , lpHealth := .ok healthyLpHealth
  , tokenDistribution := .ok { top10HoldersPercent := 40, holderCount := some 2 }
  , transactionPatterns := .error "Failed to fetch transactions"
  , riskScore := 10
  , flags := ["Moderate concentration (>20% in top 10)"] }

/-! ## Helper lemmas: the shape of each section's result -/

/-- Case analysis of step 1: the authorities section, its flags and its
score contribution take exactly five shapes. -/
theorem checkAuthorities_shape (m : Option MintInfo) :
    checkAuthorities m = (.error "Failed to fetch on-chain mint info", [], 0) ∨
    checkAuthorities m = (.ok ⟨"Active (Risk: Can mint more tokens)", "Active (Risk: Can freeze tokens)"⟩,
      ["Mint authority active", "Freeze authority active"], 50) ∨
    checkAuthorities m = (.ok ⟨"Active (Risk: Can mint more tokens)", "Renounced (Safe)"⟩,
      ["Mint authority active"], 30) ∨
    checkAuthorities m = (.ok ⟨"Renounced (Safe)", "Active (Risk: Can freeze tokens)"⟩,
      ["Freeze authority active"], 20) ∨
    checkAuthorities m = (.ok ⟨"Renounced (Safe)", "Renounced (Safe)"⟩, [], 0) := by
  cases m with
  | none => left; rfl
  | some mi =>
    cases hm : mi.mintAuthority <;> cases hf : mi.freezeAuthority <;>
      simp [checkAuthorities, hm, hf]

/-- Case analysis of step 2: the admin-keys section either fails or fires
at most the creator-share rule. -/
theorem checkAdminKeys_shape (t : Option TokenMeta) :
    checkAdminKeys t = (.error "Failed to fetch token meta", [], 0) ∨
    ∃ a : AdminKeys,
      checkAdminKeys t = (.ok a, ["Creator holds >10% share"], 15) ∨
      checkAdminKeys t = (.ok a, [], 0) := by
  cases t with
  | none => left; rfl
  | some meta =>
    right
    simp only [checkAdminKeys]
    split_ifs with hc
    · exact ⟨_, Or.inl rfl⟩
    · exact ⟨_, Or.inr rfl⟩

/-- Case analysis of step 3 when it does not throw: with no pairs the
section errors and the no-liquidity rule fires; otherwise the tiny-LP and
LP-risk rules fire independently. -/
theorem checkLpHealth_shape {auth : Except String Authorities} {pairs : List Pair}
    {res : Except String LpHealth × List String × ℕ}
    (h : checkLpHealth auth pairs = .ok res) :
    (pairs = [] ∧ res = (.error "No DEX pairs found", ["No liquidity pools detected"], 30)) ∨
    (pairs ≠ [] ∧ ∃ lp : LpHealth, res.1 = .ok lp ∧
      ((res.2.1 = ["Tiny LP (<$20k)", "Potential LP risk due to active mint"] ∧ res.2.2 = 35) ∨
       (res.2.1 = ["Tiny LP (<$20k)"] ∧ res.2.2 = 25) ∨
       (res.2.1 = ["Potential LP risk due to active mint"] ∧ res.2.2 = 10) ∨
       (res.2.1 = [] ∧ res.2.2 = 0))) := by
  cases pairs with
  | nil =>
    simp [checkLpHealth] at h
    exact Or.inl ⟨rfl, h.symm⟩
  | cons first rest =>
    cases auth with
    | error e => simp [checkLpHealth] at h
    | ok a =>
      simp only [checkLpHealth, Except.ok.injEq] at h
      subst h
      right
      refine ⟨by simp, ?_⟩
      refine ⟨_, rfl, ?_⟩
      split_ifs with h1 h2 h2 <;> simp

/-- Case analysis of step 4 when it does not throw: the distribution
section either errors or fires exactly the concentration rule matching
its reported percentage. -/
theorem checkDistribution_shape {t : Option TokenMeta} {hs : List Holder}
    {res : Except String TokenDistribution × List String × ℕ}
    (h : checkDistribution t hs = .ok res) :
    res = (.error "Failed to fetch holders", [], 0) ∨
    ∃ dst : TokenDistribution,
      (res = (.ok dst, ["High concentration (>50% in top 10)"], 25) ∧ 50 < dst.top10HoldersPercent) ∨
      (res = (.ok dst, ["Moderate concentration (>20% in top 10)"], 10) ∧
         20 < dst.top10HoldersPercent ∧ ¬ 50 < dst.top10HoldersPercent) ∨
      (res = (.ok dst, [], 0) ∧ ¬ 20 < dst.top10HoldersPercent) := by
  cases hs with
  | nil =>
    simp [checkDistribution] at h
    exact Or.inl h.symm
  | cons first rest =>
    simp only [checkDistribution] at h
    by_cases hz : (t.bind TokenMeta.supply).getD 0 = 0
    · simp [hz] at h
    · simp only [hz, if_false, if_neg] at h
      right
      by_cases h50 : top10PercentOf ((t.bind TokenMeta.supply).getD 0) (first :: rest) > 50
      · simp only [h50, if_pos, if_true, Except.ok.injEq] at h
        subst h
        exact ⟨_, Or.inl ⟨rfl, h50⟩⟩
      · by_cases h20 : top10PercentOf ((t.bind TokenMeta.supply).getD 0) (first :: rest) > 20
        · simp only [h50, h20, if_neg, if_pos, if_true, if_false, Except.ok.injEq] at h
          subst h
          exact ⟨_, Or.inr (Or.inl ⟨rfl, h20, h50⟩)⟩
        · simp only [h50, h20, if_neg, if_false, Except.ok.injEq] at h
          subst h
          exact ⟨_, Or.inr (Or.inr ⟨rfl, h20⟩)⟩

/-- Case analysis of step 5: the transaction section either errors or
fires at most the large-dumps rule. -/
theorem checkTxPatterns_shape (l : List Tx) :
    checkTxPatterns l = (.error "Failed to fetch transactions", [], 0) ∨
    ∃ tp : TransactionPatterns,
      checkTxPatterns l = (.ok tp, ["Recent large dumps detected"], 20) ∨
      checkTxPatterns l = (.ok tp, [], 0) := by
  cases l with
  | nil => left; rfl
  | cons first rest =>
    right
    simp only [checkTxPatterns]
    split_ifs with hd
    · exact ⟨_, Or.inl rfl⟩
    · exact ⟨_, Or.inr rfl⟩

/-- Decomposition of a run that returns a report: the report is assembled
from the five section results, its flags are their concatenation in
source order, and its score is the capped sum of their contributions. -/
theorem performSecurityChecks_ok_elim {inp : ProviderResponses} {r : Report}
    (h : performSecurityChecks inp = .ok r) :
    ∃ l d,
      checkLpHealth (checkAuthorities inp.mintResult).1 (getDexPairs inp.dexResult) = .ok l ∧
      checkDistribution (getTokenMeta inp.metaResult) (getTopHolders inp.holdersResult) = .ok d ∧
      r.authorities = (checkAuthorities inp.mintResult).1 ∧
      r.tokenDistribution = d.1 ∧
      r.riskScore = min ((checkAuthorities inp.mintResult).2.2 +
        (checkAdminKeys (getTokenMeta inp.metaResult)).2.2 + l.2.2 + d.2.2 +
        (checkTxPatterns (getRecentTransactions inp.txResult)).2.2) 100 ∧
      r.flags = (checkAuthorities inp.mintResult).2.1 ++
        (checkAdminKeys (getTokenMeta inp.metaResult)).2.1 ++ l.2.1 ++ d.2.1 ++
        (checkTxPatterns (getRecentTransactions inp.txResult)).2.1 := by
  simp only [performSecurityChecks] at h
  cases h3 : checkLpHealth (checkAuthorities inp.mintResult).1 (getDexPairs inp.dexResult) with
  | error e => rw [h3] at h; simp at h
  | ok l =>
    rw [h3] at h
    cases h4 : checkDistribution (getTokenMeta inp.metaResult) (getTopHolders inp.holdersResult) with
    | error e => rw [h4] at h; simp at h
    | ok d =>
      rw [h4] at h
      simp only [Except.ok.injEq] at h
      subst h
      exact ⟨l, d, rfl, rfl, rfl, rfl, rfl, rfl⟩

/-! ## Helper lemmas: flags determine score contributions -/

/-- The authorities flags map to exactly this step's score contribution. -/
theorem checkAuthorities_delta (m : Option MintInfo) :
    (((checkAuthorities m).2.1).map flagDelta).sum = (checkAuthorities m).2.2 := by
  rcases checkAuthorities_shape m with h | h | h | h | h <;> rw [h] <;> rfl

/-- The admin-keys flags map to exactly this step's score contribution. -/
theorem checkAdminKeys_delta (t : Option TokenMeta) :
    (((checkAdminKeys t).2.1).map flagDelta).sum = (checkAdminKeys t).2.2 := by
  rcases checkAdminKeys_shape t with h | ⟨a, h | h⟩ <;> rw [h] <;> rfl

/-- The LP-health flags map to exactly this step's score contribution. -/
theorem checkLpHealth_delta {auth : Except String Authorities} {pairs : List Pair}
    {res : Except String LpHealth × List String × ℕ}
    (h : checkLpHealth auth pairs = .ok res) :
    ((res.2.1).map flagDelta).sum = res.2.2 := by
  rcases checkLpHealth_shape h with ⟨_, rfl⟩ | ⟨_, lp, h1, ⟨h2, h3⟩ | ⟨h2, h3⟩ | ⟨h2, h3⟩ | ⟨h2, h3⟩⟩
  · rfl
  all_goals rw [h2, h3]; rfl

/-- The distribution flags map to exactly this step's score contribution. -/
theorem checkDistribution_delta {t : Option TokenMeta} {hs : List Holder}
    {res : Except String TokenDistribution × List String × ℕ}
    (h : checkDistribution t hs = .ok res) :
    ((res.2.1).map flagDelta).sum = res.2.2 := by
  rcases checkDistribution_shape h with rfl | ⟨dst, ⟨rfl, _⟩ | ⟨rfl, _, _⟩ | ⟨rfl, _⟩⟩ <;> rfl

/-- The transaction flags map to exactly this step's score contribution. -/
theorem checkTxPatterns_delta (l : List Tx) :
    (((checkTxPatterns l).2.1).map flagDelta).sum = (checkTxPatterns l).2.2 := by
  rcases checkTxPatterns_shape l with h | ⟨tp, h | h⟩ <;> rw [h] <;> rfl

/-! ## Helper lemmas: which flags each section can emit -/

/-- Only the mint and freeze flags can come from the authorities step. -/
theorem mem_checkAuthorities_flags {m : Option MintInfo} {x : String}
    (hx : x ∈ (checkAuthorities m).2.1) :
    x = "Mint authority active" ∨ x = "Freeze authority active" := by
  rcases checkAuthorities_shape m with h | h | h | h | h <;> rw [h] at hx <;> simp at hx <;> tauto

/-- Only the creator-share flag can come from the admin-keys step. -/
theorem mem_checkAdminKeys_flags {t : Option TokenMeta} {x : String}
    (hx : x ∈ (checkAdminKeys t).2.1) : x = "Creator holds >10% share" := by
  rcases checkAdminKeys_shape t with h | ⟨a, h | h⟩ <;> rw [h] at hx <;> simp at hx <;> tauto

/-- Only the three liquidity flags can come from the LP-health step. -/
theorem mem_checkLpHealth_flags {auth : Except String Authorities} {pairs : List Pair}
    {res : Except String LpHealth × List String × ℕ} {x : String}
    (h : checkLpHealth auth pairs = .ok res) (hx : x ∈ res.2.1) :
    x = "No liquidity pools detected" ∨ x = "Tiny LP (<$20k)" ∨
    x = "Potential LP risk due to active mint" := by
  rcases checkLpHealth_shape h with ⟨_, rfl⟩ | ⟨_, lp, h1, ⟨h2, h3⟩ | ⟨h2, h3⟩ | ⟨h2, h3⟩ | ⟨h2, h3⟩⟩ <;>
    [skip; rw [h2] at hx; rw [h2] at hx; rw [h2] at hx; rw [h2] at hx] <;> simp at hx <;> tauto

/-- Only the two concentration flags can come from the distribution step. -/
theorem mem_checkDistribution_flags {t : Option TokenMeta} {hs : List Holder}
    {res : Except String TokenDistribution × List String × ℕ} {x : String}
    (h : checkDistribution t hs = .ok res) (hx : x ∈ res.2.1) :
    x = "High concentration (>50% in top 10)" ∨ x = "Moderate concentration (>20% in top 10)" := by
  rcases checkDistribution_shape h with rfl | ⟨dst, ⟨rfl, _⟩ | ⟨rfl, _, _⟩ | ⟨rfl, _⟩⟩ <;>
    simp at hx <;> tauto

/-- Only the large-dumps flag can come from the transaction step. -/
theorem mem_checkTxPatterns_flags {l : List Tx} {x : String}
    (hx : x ∈ (checkTxPatterns l).2.1) : x = "Recent large dumps detected" := by
  rcases checkTxPatterns_shape l with h | ⟨tp, h | h⟩ <;> rw [h] at hx <;> simp at hx <;> tauto

/-! ## Helper lemmas: when individual flags fire -/

/-- The mint flag is emitted by step 1 exactly when the chain read
succeeded and reported an active mint authority. -/
theorem mintFlag_iff (m : Option MintInfo) :
    "Mint authority active" ∈ (checkAuthorities m).2.1 ↔
      ∃ mi, m = some mi ∧ mi.mintAuthority.isSome := by
  cases m with
  | none => simp [checkAuthorities]
  | some mi =>
    cases hm : mi.mintAuthority <;> cases hf : mi.freezeAuthority <;>
      simp [checkAuthorities, hm, hf]

/-- The freeze flag is emitted by step 1 exactly when the chain read
succeeded and reported an active freeze authority. -/
theorem freezeFlag_iff (m : Option MintInfo) :
    "Freeze authority active" ∈ (checkAuthorities m).2.1 ↔
      ∃ mi, m = some mi ∧ mi.freezeAuthority.isSome := by
  cases m with
  | none => simp [checkAuthorities]
  | some mi =>
    cases hm : mi.mintAuthority <;> cases hf : mi.freezeAuthority <;>
      simp [checkAuthorities, hm, hf]

/-- The no-liquidity flag is emitted by step 3 exactly when the delivered
pair list is empty — whether the DEX call failed or returned no pairs. -/
theorem noliqFlag_iff {auth : Except String Authorities} {pairs : List Pair}
    {res : Except String LpHealth × List String × ℕ}
    (h : checkLpHealth auth pairs = .ok res) :
    "No liquidity pools detected" ∈ res.2.1 ↔ pairs = [] := by
  rcases checkLpHealth_shape h with ⟨hp, rfl⟩ | ⟨hp, lp, h1, ⟨h2, _⟩ | ⟨h2, _⟩ | ⟨h2, _⟩ | ⟨h2, _⟩⟩ <;>
    [skip; rw [h2]; rw [h2]; rw [h2]; rw [h2]] <;> simp [hp]

/-- A concentration flag is in the report exactly when the distribution
step emitted it; the other four steps never emit either string. -/
theorem concFlag_run_iff {inp : ProviderResponses} {r : Report}
    (h : performSecurityChecks inp = .ok r) :
    ∃ d, checkDistribution (getTokenMeta inp.metaResult) (getTopHolders inp.holdersResult) = .ok d ∧
      r.tokenDistribution = d.1 ∧
      ("High concentration (>50% in top 10)" ∈ r.flags ↔
        "High concentration (>50% in top 10)" ∈ d.2.1) ∧
      ("Moderate concentration (>20% in top 10)" ∈ r.flags ↔
        "Moderate concentration (>20% in top 10)" ∈ d.2.1) := by
  obtain ⟨l, d, hl, hd, hauth, hdist, hscore, hflags⟩ := performSecurityChecks_ok_elim h
  refine ⟨d, hd, hdist, ?_, ?_⟩ <;> constructor
  · intro hx
    rw [hflags] at hx
    rcases List.mem_append.1 hx with hx | hx5
    · rcases List.mem_append.1 hx with hx | hx4
      · rcases List.mem_append.1 hx with hx | hx3
        · rcases List.mem_append.1 hx with hx1 | hx2
          · rcases mem_checkAuthorities_flags hx1 with h' | h' <;> exact absurd h' (by decide)
          · exact absurd (mem_checkAdminKeys_flags hx2) (by decide)
        · rcases mem_checkLpHealth_flags hl hx3 with h' | h' | h' <;> exact absurd h' (by decide)
      · exact hx4
    · exact absurd (mem_checkTxPatterns_flags hx5) (by decide)
  · intro hx
    rw [hflags]
    simp only [List.mem_append]
    tauto
  · intro hx
    rw [hflags] at hx
    rcases List.mem_append.1 hx with hx | hx5
    · rcases List.mem_append.1 hx with hx | hx4
      · rcases List.mem_append.1 hx with hx | hx3
        · rcases List.mem_append.1 hx with hx1 | hx2
          · rcases mem_checkAuthorities_flags hx1 with h' | h' <;> exact absurd h' (by decide)
          · exact absurd (mem_checkAdminKeys_flags hx2) (by decide)
        · rcases mem_checkLpHealth_flags hl hx3 with h' | h' | h' <;> exact absurd h' (by decide)
      · exact hx4
    · exact absurd (mem_checkTxPatterns_flags hx5) (by decide)
  · intro hx
    rw [hflags]
    simp only [List.mem_append]
    tauto

/-! ## Claim theorems -/

/-- Claim C1 (refuted; code bug): the claim says that for every pattern of
individual provider failures the run terminates normally with a Report
carrying per-section error markers.  In the code this is false: when the
chain reader fails and the DEX reader delivers at least one pair, line 127
reads `report.authorities.mintAuthority.includes` on `undefined` and the
whole run aborts with a TypeError instead of returning a Report. -/
theorem c1_single_provider_failure_aborts_run :
    c1Input.mintResult = none ∧
    performSecurityChecks c1Input =
      .error "TypeError: Cannot read properties of undefined (reading includes)" := by
  exact ⟨rfl, rfl⟩

/-- Claim C2 (confirmed): for every run that returns a Report, the final
riskScore lies in [0,100]; if the sum of the fired rules' score deltas
(the deltas attached to the emitted flags) reaches 100 the score is
exactly 100, and if that sum is at most 0 (all deltas are nonnegative, so
this means no rule fired) the score is exactly 0. -/
theorem c2_riskScore_clamped {inp : ProviderResponses} {r : Report}
    (h : performSecurityChecks inp = .ok r) :
    0 ≤ r.riskScore ∧ r.riskScore ≤ 100 ∧
    (100 ≤ (r.flags.map flagDelta).sum → r.riskScore = 100) ∧
    (((r.flags.map flagDelta).sum : ℤ) ≤ 0 → r.riskScore = 0) := by
  obtain ⟨l, d, hl, hd, hauth, hdist, hscore, hflags⟩ := performSecurityChecks_ok_elim h
  have e1 := checkAuthorities_delta inp.mintResult
  have e2 := checkAdminKeys_delta (getTokenMeta inp.metaResult)
  have e3 := checkLpHealth_delta hl
  have e4 := checkDistribution_delta hd
  have e5 := checkTxPatterns_delta (getRecentTransactions inp.txResult)
  have hsum : (r.flags.map flagDelta).sum =
      (checkAuthorities inp.mintResult).2.2 + (checkAdminKeys (getTokenMeta inp.metaResult)).2.2 +
      l.2.2 + d.2.2 + (checkTxPatterns (getRecentTransactions inp.txResult)).2.2 := by
    rw [hflags]
    simp only [List.map_append, List.sum_append]
    omega
  refine ⟨Nat.zero_le _, ?_, ?_, ?_⟩
  · rw [hscore]; omega
  · intro hge; rw [hsum] at hge; rw [hscore]; omega
  · intro hle; rw [hsum] at hle; rw [hscore]; omega

/-- Witness for C2: on `c2Input` five rules fire for a raw delta sum of
120 ≥ 100 and the reported riskScore is exactly 100. -/
theorem c2_riskScore_clamped_witness :
    performSecurityChecks c2Input = .ok c2Report ∧
    100 ≤ (c2Report.flags.map flagDelta).sum ∧
    c2Report.riskScore = 100 :=
  ⟨by decide, by decide,
    (c2_riskScore_clamped (by decide : performSecurityChecks c2Input = .ok c2Report)).2.2.1
      (by decide)⟩

/-- Claim C3 (refuted; code bug): the claim says that when only the
chain-state reader fails, the Report still comes back with an authorities
error marker and the other sections populated.  In the code, with every
other provider succeeding with non-empty data, the run instead aborts
with a TypeError at the `report.authorities.mintAuthority.includes` call,
and no Report is returned at all. -/
theorem c3_chain_failure_crashes_despite_other_sources :
    c3Input.mintResult = none ∧
    c3Input.metaResult.isSome ∧ c3Input.dexResult.isSome ∧
    c3Input.holdersResult.isSome ∧ c3Input.txResult.isSome ∧
    performSecurityChecks c3Input =
      .error "TypeError: Cannot read properties of undefined (reading includes)" := by
  exact ⟨rfl, rfl, rfl, rfl, rfl, rfl⟩

/-- Counterexample to claim C4: the claim says no rule fires on signals
whose provider call failed.  On `c4Input` the DEX-pair provider call
failed (`dexResult = none`), yet the run returns a Report containing the
flag "No liquidity pools detected" with its +30 delta: the adapter maps
the failure to an empty pair list, which the no-liquidity rule treats as
evidence of risk. -/
theorem c4_rule_fires_on_absent_dex_data :
    c4Input.dexResult = none ∧
    performSecurityChecks c4Input = .ok c4Report ∧
    "No liquidity pools detected" ∈ c4Report.flags ∧
    c4Report.riskScore = 30 := by
  refine ⟨rfl, by decide, by decide, rfl⟩

/-- Claim C4 (amended): flags track their owning rule's condition on the
data the run derived: the mint and freeze flags appear exactly when the
chain read succeeded with the corresponding authority set, but the
no-liquidity flag appears exactly when the delivered pair list is empty —
including when the DEX provider call failed, since the adapter maps
failure to an empty list. -/
theorem c4_flag_iff_condition_on_delivered_data {inp : ProviderResponses} {r : Report}
    (h : performSecurityChecks inp = .ok r) :
    ("Mint authority active" ∈ r.flags ↔
      ∃ mi, inp.mintResult = some mi ∧ mi.mintAuthority.isSome) ∧
    ("Freeze authority active" ∈ r.flags ↔
      ∃ mi, inp.mintResult = some mi ∧ mi.freezeAuthority.isSome) ∧
    ("No liquidity pools detected" ∈ r.flags ↔ getDexPairs inp.dexResult = []) := by
  obtain ⟨l, d, hl, hd, hauth, hdist, hscore, hflags⟩ := performSecurityChecks_ok_elim h
  refine ⟨?_, ?_, ?_⟩
  · rw [← mintFlag_iff inp.mintResult]
    constructor
    · intro hx
      rw [hflags] at hx
      rcases List.mem_append.1 hx with hx | hx5
      · rcases List.mem_append.1 hx with hx | hx4
        · rcases List.mem_append.1 hx with hx | hx3
          · rcases List.mem_append.1 hx with hx1 | hx2
            · exact hx1
            · exact absurd (mem_checkAdminKeys_flags hx2) (by decide)
          · rcases mem_checkLpHealth_flags hl hx3 with h' | h' | h' <;> exact absurd h' (by decide)
        · rcases mem_checkDistribution_flags hd hx4 with h' | h' <;> exact absurd h' (by decide)
      · exact absurd (mem_checkTxPatterns_flags hx5) (by decide)
    · intro hx
      rw [hflags]
      simp only [List.mem_append]
      tauto
  · rw [← freezeFlag_iff inp.mintResult]
    constructor
    · intro hx
      rw [hflags] at hx
      rcases List.mem_append.1 hx with hx | hx5
      · rcases List.mem_append.1 hx with hx | hx4
        · rcases List.mem_append.1 hx with hx | hx3
          · rcases List.mem_append.1 hx with hx1 | hx2
            · exact hx1
            · exact absurd (mem_checkAdminKeys_flags hx2) (by decide)
          · rcases mem_checkLpHealth_flags hl hx3 with h' | h' | h' <;> exact absurd h' (by decide)
        · rcases mem_checkDistribution_flags hd hx4 with h' | h' <;> exact absurd h' (by decide)
      · exact absurd (mem_checkTxPatterns_flags hx5) (by decide)
    · intro hx
      rw [hflags]
      simp only [List.mem_append]
      tauto
  · rw [← noliqFlag_iff hl]
    constructor
    · intro hx
      rw [hflags] at hx
      rcases List.mem_append.1 hx with hx | hx5
      · rcases List.mem_append.1 hx with hx | hx4
        · rcases List.mem_append.1 hx with hx | hx3
          · rcases List.mem_append.1 hx with hx1 | hx2
            · rcases mem_checkAuthorities_flags hx1 with h' | h' <;> exact absurd h' (by decide)
            · exact absurd (mem_checkAdminKeys_flags hx2) (by decide)
          · exact hx3
        · rcases mem_checkDistribution_flags hd hx4 with h' | h' <;> exact absurd h' (by decide)
      · exact absurd (mem_checkTxPatterns_flags hx5) (by decide)
    · intro hx
      rw [hflags]
      simp only [List.mem_append]
      tauto

/-- Witness for the amended C4: instantiated on `c4Input`, whose DEX call
failed, the characterization shows the no-liquidity flag present. -/
theorem c4_flag_iff_condition_on_delivered_data_witness :
    performSecurityChecks c4Input = .ok c4Report ∧
    ("No liquidity pools detected" ∈ c4Report.flags ↔ getDexPairs c4Input.dexResult = []) :=
  ⟨by decide,
    (c4_flag_iff_condition_on_delivered_data
      (by decide : performSecurityChecks c4Input = .ok c4Report)).2.2⟩

/-- Counterexample to claim C5: the claim says that with both authorities
active and no other rule condition holding on any signal derived from a
successful provider response, the Report has riskScore exactly 50 and
flags exactly the two authority flags.  On `c5Input` the mint and freeze
authorities are active and every other provider failed or returned
nothing, yet the run reports riskScore 80 and a third flag. -/
theorem c5_exactly_two_flags_unreachable :
    (∃ mi, c5Input.mintResult = some mi ∧ mi.mintAuthority.isSome ∧ mi.freezeAuthority.isSome) ∧
    performSecurityChecks c5Input = .ok c5Report ∧
    c5Report.riskScore ≠ 50 ∧
    c5Report.flags ≠ ["Mint authority active", "Freeze authority active"] := by
  refine ⟨⟨⟨some "MINTAUTH", some "FREEZEAUTH"⟩, rfl, rfl, rfl⟩, by decide, by decide, by decide⟩

/-- When the chain read delivers both authorities active, step 1 emits
exactly the mint flag then the freeze flag for a +50 contribution. -/
theorem checkAuthorities_both_active {mi : MintInfo}
    (hma : mi.mintAuthority.isSome) (hfa : mi.freezeAuthority.isSome) :
    checkAuthorities (some mi) =
      (.ok ⟨"Active (Risk: Can mint more tokens)", "Active (Risk: Can freeze tokens)"⟩,
       ["Mint authority active", "Freeze authority active"], 50) := by
  simp [checkAuthorities, hma, hfa]

/-- With an active mint authority recorded in the authorities section and
a non-empty pair list, step 3 always fires the LP-risk rule (+10 at
least). -/
theorem checkLpHealth_active_mint {fa : String} {p : Pair} {ps : List Pair}
    {l : Except String LpHealth × List String × ℕ}
    (h : checkLpHealth (.ok ⟨"Active (Risk: Can mint more tokens)", fa⟩) (p :: ps) = .ok l) :
    "Potential LP risk due to active mint" ∈ l.2.1 ∧ 10 ≤ l.2.2 := by
  simp only [checkLpHealth, Except.ok.injEq] at h
  subst h
  have hc : includesStr "Active (Risk: Can mint more tokens)" "Active" = true := by decide
  simp only [hc, if_true]
  split_ifs <;> simp

/-- Claim C5 (amended): for every run returning a Report in which the
chain read succeeded with both mint and freeze authorities active, the
flags list begins with "Mint authority active" then "Freeze authority
active" and never stops there: "No liquidity pools detected" also fires
when the delivered pair list is empty (including a failed DEX call), and
"Potential LP risk due to active mint" also fires when pairs are present.
Hence the flags list is never exactly the two authority flags and the
riskScore is at least 60 — in particular never 50. -/
theorem c5_mint_freeze_plus_forced_liquidity_flag {inp : ProviderResponses} {r : Report}
    {mi : MintInfo}
    (h : performSecurityChecks inp = .ok r) (hm : inp.mintResult = some mi)
    (hma : mi.mintAuthority.isSome) (hfa : mi.freezeAuthority.isSome) :
    (∃ rest, rest ≠ [] ∧
      r.flags = "Mint authority active" :: "Freeze authority active" :: rest) ∧
    (getDexPairs inp.dexResult = [] → "No liquidity pools detected" ∈ r.flags) ∧
    (getDexPairs inp.dexResult ≠ [] → "Potential LP risk due to active mint" ∈ r.flags) ∧
    r.flags ≠ ["Mint authority active", "Freeze authority active"] ∧
    60 ≤ r.riskScore ∧ r.riskScore ≠ 50 := by
  obtain ⟨l, d, hl, hd, hauth, hdist, hscore, hflags⟩ := performSecurityChecks_ok_elim h
  have ha := checkAuthorities_both_active hma hfa
  rw [hm, ha] at hl hscore hflags
  simp only [List.cons_append, List.nil_append, List.append_assoc] at hflags
  have hkey : (getDexPairs inp.dexResult = [] → "No liquidity pools detected" ∈ l.2.1) ∧
      (getDexPairs inp.dexResult ≠ [] → "Potential LP risk due to active mint" ∈ l.2.1) ∧
      l.2.1 ≠ [] ∧ 10 ≤ l.2.2 := by
    rcases hq : getDexPairs inp.dexResult with _ | ⟨p, ps⟩
    · rw [hq] at hl
      simp [checkLpHealth] at hl
      rw [← hl]
      exact ⟨fun _ => by decide, fun hne => absurd rfl hne, by decide, by decide⟩
    · rw [hq] at hl
      obtain ⟨hmem, hs⟩ := checkLpHealth_active_mint hl
      exact ⟨fun hx => by simp at hx, fun _ => hmem, List.ne_nil_of_mem hmem, hs⟩
  obtain ⟨hknil, hkcons, hkne, hk10⟩ := hkey
  have hmemflags : ∀ x, x ∈ l.2.1 → x ∈ r.flags := by
    intro x hx
    rw [hflags]
    simp only [List.mem_cons, List.mem_append]
    tauto
  have hrest : ∃ rest, rest ≠ [] ∧
      r.flags = "Mint authority active" :: "Freeze authority active" :: rest := by
    refine ⟨_, ?_, hflags⟩
    intro hnil
    rcases List.append_eq_nil.1 hnil with ⟨h2, h3⟩
    rcases List.append_eq_nil.1 h3 with ⟨h4, h5⟩
    exact hkne h4
  have hs2 : r.riskScore = min (50 + (checkAdminKeys (getTokenMeta inp.metaResult)).2.2 +
      l.2.2 + d.2.2 + (checkTxPatterns (getRecentTransactions inp.txResult)).2.2) 100 := hscore
  refine ⟨hrest, fun hq => hmemflags _ (hknil hq), fun hq => hmemflags _ (hkcons hq), ?_, ?_, ?_⟩
  · obtain ⟨rest, hne, heq⟩ := hrest
    rw [heq]
    intro hcontra
    simp at hcontra
    exact hne hcontra
  · rw [hs2]
    omega
  · rw [hs2]
    omega

/-- Witness for the amended C5: on `c5Input` (both authorities active,
every other provider failed or empty) the theorem yields the three-flag
Report with riskScore 80 ≥ 60. -/
theorem c5_mint_freeze_plus_forced_liquidity_flag_witness :
    performSecurityChecks c5Input = .ok c5Report ∧
    c5Input.mintResult = some ⟨some "MINTAUTH", some "FREEZEAUTH"⟩ ∧
    (∃ rest, rest ≠ [] ∧
      c5Report.flags = "Mint authority active" :: "Freeze authority active" :: rest) ∧
    60 ≤ c5Report.riskScore ∧ c5Report.riskScore ≠ 50 := by
  refine ⟨by decide, rfl, ?_, ?_, ?_⟩
  · exact (@c5_mint_freeze_plus_forced_liquidity_flag c5Input c5Report
      ⟨some "MINTAUTH", some "FREEZEAUTH"⟩ (by decide) rfl (by decide) (by decide)).1
  · exact (@c5_mint_freeze_plus_forced_liquidity_flag c5Input c5Report
      ⟨some "MINTAUTH", some "FREEZEAUTH"⟩ (by decide) rfl (by decide) (by decide)).2.2.2.2.1
  · exact (@c5_mint_freeze_plus_forced_liquidity_flag c5Input c5Report
      ⟨some "MINTAUTH", some "FREEZEAUTH"⟩ (by decide) rfl (by decide) (by decide)).2.2.2.2.2

/-- Claim C6 (confirmed): on the holder list `[{amount: 600}, {amount:
400}]` with metadata supply 1000 (decimals 0), the distribution section
reports `top10HoldersPercent = 100`, the high-concentration flag is
present (here it is the only flag), and its +25 delta is the entire
riskScore. -/
theorem c6_holder_concentration_example :
    performSecurityChecks c6Input = .ok c6Report ∧
    c6Report.tokenDistribution = .ok ⟨100, some 2⟩ ∧
    c6Report.flags = ["High concentration (>50% in top 10)"] ∧
    c6Report.riskScore = 25 ∧
    flagDelta "High concentration (>50% in top 10)" = 25 := by
  refine ⟨by decide, by decide, by decide, rfl, rfl⟩

/-- Claim C7 (confirmed): a Report never contains both concentration
flags, and whenever the distribution section reports a top-10 share above
50 the high-severity flag is present and the moderate one is absent. -/
theorem c7_concentration_flags_exclusive {inp : ProviderResponses} {r : Report}
    (h : performSecurityChecks inp = .ok r) :
    ¬("High concentration (>50% in top 10)" ∈ r.flags ∧
      "Moderate concentration (>20% in top 10)" ∈ r.flags) ∧
    (∀ dst : TokenDistribution, r.tokenDistribution = .ok dst →
      50 < dst.top10HoldersPercent →
      "High concentration (>50% in top 10)" ∈ r.flags ∧
      "Moderate concentration (>20% in top 10)" ∉ r.flags) := by
  obtain ⟨d, hd, hdist, hiIff, moIff⟩ := concFlag_run_iff h
  constructor
  · rintro ⟨hhi, hmo⟩
    have h1 := hiIff.1 hhi
    have h2 := moIff.1 hmo
    rcases checkDistribution_shape hd with rfl | ⟨dst, ⟨rfl, _⟩ | ⟨rfl, _, _⟩ | ⟨rfl, _⟩⟩ <;>
      simp at h1 h2
  · intro dst hdq h50
    rw [hdist] at hdq
    rcases checkDistribution_shape hd with rfl | ⟨dst', ⟨rfl, hgt⟩ | ⟨rfl, hgt, hle⟩ | ⟨rfl, hle⟩⟩
    · simp at hdq
    · constructor
      · exact hiIff.2 (by simp)
      · intro hmo
        have := moIff.1 hmo
        simp at this
    · simp at hdq
      subst hdq
      exact absurd h50 hle
    · simp at hdq
      subst hdq
      exact absurd (show 20 < dst'.top10HoldersPercent by omega) hle

/-- Witness for C7: on `c7Input` the moderate flag fires and the two
concentration flags are indeed not both present. -/
theorem c7_concentration_flags_exclusive_witness :
    performSecurityChecks c7Input = .ok c7Report ∧
    ¬("High concentration (>50% in top 10)" ∈ c7Report.flags ∧
      "Moderate concentration (>20% in top 10)" ∈ c7Report.flags) :=
  ⟨by decide,
    (c7_concentration_flags_exclusive
      (by decide : performSecurityChecks c7Input = .ok c7Report)).1⟩

/-- Claim C8 (refuted; code bug): the claim (and section 4.2 of the
design) says a payload with a missing `supply` field must fail closed
with a NormalizationError limited to that source, and no amount may be
divided using an assumed default.  The code instead substitutes the
default `0` (`BigInt(tokenMeta?.supply || 0)`) and, with a non-empty
holder list, the BigInt division throws a RangeError that aborts the
whole run. -/
theorem c8_missing_supply_crashes_with_default_zero :
    c8Input.metaResult.isSome ∧
    (c8Input.metaResult.bind TokenMeta.supply) = none ∧
    c8Input.holdersResult = some [⟨600⟩] ∧
    performSecurityChecks c8Input = .error "RangeError: Division by zero" := by
  exact ⟨rfl, rfl, rfl, by rfl⟩

/-- Claim C9 (confirmed): the engine is a pure function of the provider
responses — there is no randomness, clock access, or mutable state — so
two runs on the same identifier with identical provider responses return
equal results: the same sections, the same flags in the same order, and
the same riskScore. -/
theorem c9_identical_responses_identical_reports (inp : ProviderResponses)
    (out1 out2 : Except String Report)
    (h1 : performSecurityChecks inp = out1) (h2 : performSecurityChecks inp = out2) :
    out1 = out2 := by
  rw [← h1, ← h2]

/-- Witness for C9: two evaluations on `c6Input` give the same report. -/
theorem c9_identical_responses_identical_reports_witness :
    (Except.ok c6Report : Except String Report) = .ok c6Report :=
  c9_identical_responses_identical_reports c6Input (.ok c6Report) (.ok c6Report)
    (by decide) (by decide)

/-- Claim C10 (confirmed): each holder's percentage contribution is the
truncated (BigInt floor) division `amount * 100 / totalSupply` computed
before summing (`holderContribution`/`top10PercentOf` are the very
definitions used by the engine's distribution step), so a holder whose
balance is strictly below 1% of the total supply contributes exactly 0,
and the reported `top10HoldersPercent` never exceeds the exact rational
top-10 share percentage. -/
theorem c10_floor_contributions_underestimate (S : ℕ) (holders : List Holder) (_hS : 0 < S) :
    (∀ hd ∈ holders, (hd.amount : ℚ) < (S : ℚ) / 100 → holderContribution S hd = 0) ∧
    (top10PercentOf S holders : ℚ) ≤ ((holders.map Holder.amount).sum : ℚ) * 100 / (S : ℚ) := by
  constructor
  · intro hd _ hlt
    rw [lt_div_iff₀ (by norm_num : (0:ℚ) < 100)] at hlt
    have hnat : hd.amount * 100 < S := by exact_mod_cast hlt
    unfold holderContribution
    exact Nat.div_eq_of_lt hnat
  · induction holders with
    | nil => simp [top10PercentOf]
    | cons hd t ih =>
      have hstep : ((holderContribution S hd : ℕ) : ℚ) ≤ ((hd.amount : ℚ) * 100) / (S : ℚ) := by
        have := Nat.cast_div_le (α := ℚ) (m := hd.amount * 100) (n := S)
        rw [holderContribution]
        push_cast at this ⊢
        exact this
      have hexp : top10PercentOf S (hd :: t) = holderContribution S hd + top10PercentOf S t := by
        simp [top10PercentOf]
      have hsum2 : ((hd :: t).map Holder.amount).sum = hd.amount + (t.map Holder.amount).sum := by
        simp
      rw [hexp, Nat.cast_add, hsum2, Nat.cast_add, add_mul, add_div]
      exact add_le_add hstep ih

/-- Witness for C10: with total supply 1000 and holders 600, 400 and 3,
the sub-1% holder contributes 0 and the truncated sum stays below the
exact share. -/
theorem c10_floor_contributions_underestimate_witness :
    0 < 1000 ∧
    ((∀ hd ∈ [Holder.mk 600, Holder.mk 400, Holder.mk 3],
        (hd.amount : ℚ) < ((1000 : ℕ) : ℚ) / 100 → holderContribution 1000 hd = 0) ∧
     (top10PercentOf 1000 [Holder.mk 600, Holder.mk 400, Holder.mk 3] : ℚ) ≤
       (([Holder.mk 600, Holder.mk 400, Holder.mk 3].map Holder.amount).sum : ℚ) * 100 /
         ((1000 : ℕ) : ℚ)) :=
  ⟨by decide,
    c10_floor_contributions_underestimate 1000 [Holder.mk 600, Holder.mk 400, Holder.mk 3]
      (by decide)⟩

end SolSentry
